import Mathlib

/-
Verification of the observable behaviour of `GnLBuildCred.py`, a script that
authenticates against a brokerage REST API (TOTP-based MPIN login), performs a
fixed catalog of market-data fetches (24 POST calls plus one GET call), and
writes the concatenated results to a single CSV file.

The script is embedded shallowly: HTTP traffic is replaced by an environment
(oracle) that supplies the outcome of each outbound request, and every run
produces, besides its result, the list of observable events (requests made,
sleeps, re-authentications, 403-detail logs).  Process termination via
`exit()` and uncaught exceptions are modelled with `Except`.
-/

namespace GnLBuild

/-- A row of tabular data: an association list from column name to value
(mirrors one record of a JSON `data` array, and one row of a pandas frame). -/
abbrev Row := List (String × String)

/-- The parsed JSON body of a market-data response: the `status` flag and the
optional `data` array (`none` models a body without a `"data"` key). -/
structure RespBody where
  status : Bool
  data : Option (List Row)
  deriving Repr, DecidableEq

/-- An HTTP response as seen by the script: its status code and its parsed
JSON body (`none` models a body on which `.json()` raises). -/
structure Response where
  status_code : Nat
  body : Option RespBody
  deriving Repr, DecidableEq

/-- Outcome of one `requests.post` / `requests.get` call in a data fetch:
either a response object is produced, or the call itself raises an
`HTTPError` (producing no response), or it raises some other exception. -/
inductive ReqResult where
  | ok (resp : Response)
  | raiseHttp
  | raiseOther
  deriving Repr, DecidableEq

/-- Observable events of a run. -/
inductive Event where
  | loginPost : Event
  | postReq : String → String → String → String → Event
  | getReq : String → Event
  | sleepEv : Nat → Event
  | log403 : Response → Event
  deriving Repr, DecidableEq

/-- Ways a run can abort abnormally (modelling `exit()` reached from inside a
fetch, and exceptions that escape `fetch_post_data` uncaught). -/
inductive Fatal where
  | unboundLocal
  | handlerJsonError
  | authExit
  deriving Repr, DecidableEq

/-- The four environment values read in `initialize_api`; `none` models an
unset variable (`os.getenv` returning `None`). -/
structure Config where
  api_key : Option String
  user_name : Option String
  mpin : Option String
  totp_secret : Option String
  deriving Repr, DecidableEq

/-- Python truthiness of an optional string: `None` and `""` are falsy. -/
def truthy : Option String → Bool
  | none => false
  | some s => s != ""

/-- The `all([api_key, user_name, mpin, totp_secret])` check of
`initialize_api` (line 26 of the source). -/
def credsOk (c : Config) : Bool :=
  truthy c.api_key && truthy c.user_name && truthy c.mpin && truthy c.totp_secret

/-- The parsed JSON body of the login response: `status` flag, the
`data.jwtToken` field (if present) and the `message` field. -/
structure LoginBody where
  status : Bool
  jwtToken : Option String
  message : String
  deriving Repr, DecidableEq

/-- Outcome of the login `requests.post`: either the call raises, or it
returns a response with a status code and a body (`none` = `.json()` raises). -/
inductive LoginResult where
  | raiseExc
  | resp (status_code : Nat) (body : Option LoginBody)
  deriving Repr, DecidableEq

/-- Environment of one `initialize_api` call: the configuration, whether
`pyotp.TOTP(...).now()` succeeds, and the outcome of the login request. -/
structure AuthEnv where
  config : Config
  totpOk : Bool
  login : LoginResult
  deriving Repr, DecidableEq

/-- The session object (`SmartConnect` instance) returned by a successful
`initialize_api`; only the manually-set `access_token` matters downstream. -/
structure Session where
  access_token : String
  deriving Repr, DecidableEq

/-- `initialize_api` (source lines 18-74): validate credentials, generate the
TOTP, POST the login request, and on a body with a true `status` flag and a
`jwtToken` return a session carrying that token.  Every failure path calls
`exit()`, modelled as `Except.error ()`.  The second component is the list of
network events: the login POST happens only after credential validation and
TOTP generation succeed. -/
def initialize_api (env : AuthEnv) : Except Unit Session × List Event :=
  if credsOk env.config then
    if env.totpOk then
      match env.login with
      | LoginResult.raiseExc => (Except.error (), [Event.loginPost])
      | LoginResult.resp code body =>
        if 400 ≤ code then (Except.error (), [Event.loginPost])
        else
          match body with
          | none => (Except.error (), [Event.loginPost])
          | some b =>
            if b.status ∧ truthy b.jwtToken then
              (Except.ok ⟨b.jwtToken.getD ""⟩, [Event.loginPost])
            else (Except.error (), [Event.loginPost])
    else (Except.error (), [])
  else (Except.error (), [])

/-- A default `AuthEnv` used only when a fetch's oracle of re-authentication
environments is exhausted; it fails (as would an unprovisioned environment). -/
def defaultAuthEnv : AuthEnv :=
  ⟨⟨none, none, none, none⟩, false, LoginResult.raiseExc⟩

/-- `df[k] = v` on an association-list row: overwrite the column in place if
present, else append it (pandas column assignment). -/
def setKey (r : Row) (k v : String) : Row :=
  if r.any (fun p => p.1 = k) then
    r.map (fun p => if p.1 = k then (k, v) else p)
  else r ++ [(k, v)]

/-- Tag one row with the three origin columns, in source order:
`DataType`, `ExpiryType`, `Endpoint` (source lines 106-108). -/
def tagRow (datatype expirytype endpoint : String) (r : Row) : Row :=
  setKey (setKey (setKey r "DataType" datatype) "ExpiryType" expirytype) "Endpoint" endpoint

/-- A pandas DataFrame, reduced to what the script observes: its rows. -/
structure DataFrame where
  rows : List Row
  deriving Repr, DecidableEq

/-- `df.empty`. -/
def DataFrame.isEmptyDf (df : DataFrame) : Bool := df.rows.isEmpty

/-- Environment of one data-fetch call: the outcome of each successive
request attempt, and the environments of successive re-authentications. -/
structure FetchEnv where
  attempts : List ReqResult
  auths : List AuthEnv
  deriving Repr, DecidableEq

/-- The shared retry loop of `fetch_post_data` (source lines 95-128) and
`fetch_pcr_volume` (source lines 145-178): `remaining` counts the attempts
left (`retries + 1` at entry), `token` is the bearer token currently in the
headers, and `responseVar` tracks the Python local variable `response`
(`none` while it has never been assigned).  On a response, `raise_for_status`
raises for codes ≥ 400; the `HTTPError` handler reads `response` (crashing
with `UnboundLocalError` if it was never bound), logs the 403 details from
whatever `response` currently holds (crashing if that body's `.json()`
raises), and — when attempts remain — sleeps, re-runs `initialize_api`, and
rewrites the `Authorization` header from the fresh session.  Any other
exception returns an empty frame at once.  A 2xx response with a true
`status` flag and a non-empty `data` array yields the tagged rows; otherwise
the empty frame is returned without retrying. -/
def fetchLoop (mkReq : String → Event) (datatype expirytype endpoint : String) (delay : Nat) :
    Nat → String → Option Response → List ReqResult → List AuthEnv →
    Except Fatal DataFrame × List Event
  | 0, _, _, _, _ => (Except.ok ⟨[]⟩, [])
  | remaining + 1, token, responseVar, attempts, auths =>
    let ev0 := mkReq token
    match attempts.headD ReqResult.raiseOther with
    | ReqResult.raiseOther => (Except.ok ⟨[]⟩, [ev0])
    | ReqResult.raiseHttp =>
      match responseVar with
      | none => (Except.error Fatal.unboundLocal, [ev0])
      | some r =>
        if r.status_code = 403 ∧ r.body = none then
          (Except.error Fatal.handlerJsonError, [ev0])
        else
          let les := if r.status_code = 403 then [Event.log403 r] else []
          if remaining = 0 then (Except.ok ⟨[]⟩, [ev0] ++ les)
          else
            match initialize_api (auths.headD defaultAuthEnv) with
            | (Except.error _, aevs) =>
              (Except.error Fatal.authExit, [ev0] ++ les ++ [Event.sleepEv delay] ++ aevs)
            | (Except.ok s2, aevs) =>
              let rest := fetchLoop mkReq datatype expirytype endpoint delay remaining
                s2.access_token (some r) attempts.tail auths.tail
              (rest.1, [ev0] ++ les ++ [Event.sleepEv delay] ++ aevs ++ rest.2)
    | ReqResult.ok resp =>
      if 400 ≤ resp.status_code then
        if resp.status_code = 403 ∧ resp.body = none then
          (Except.error Fatal.handlerJsonError, [ev0])
        else
          let les := if resp.status_code = 403 then [Event.log403 resp] else []
          if remaining = 0 then (Except.ok ⟨[]⟩, [ev0] ++ les)
          else
            match initialize_api (auths.headD defaultAuthEnv) with
            | (Except.error _, aevs) =>
              (Except.error Fatal.authExit, [ev0] ++ les ++ [Event.sleepEv delay] ++ aevs)
            | (Except.ok s2, aevs) =>
              let rest := fetchLoop mkReq datatype expirytype endpoint delay remaining
                s2.access_token (some resp) attempts.tail auths.tail
              (rest.1, [ev0] ++ les ++ [Event.sleepEv delay] ++ aevs ++ rest.2)
      else
        match resp.body with
        | none => (Except.ok ⟨[]⟩, [ev0])
        | some b =>
          match b.data with
          | none => (Except.ok ⟨[]⟩, [ev0])
          | some rows =>
            if b.status ∧ rows ≠ [] then
              (Except.ok ⟨rows.map (tagRow datatype expirytype endpoint)⟩, [ev0])
            else (Except.ok ⟨[]⟩, [ev0])

/-- `fetch_post_data` (source lines 77-128): POST fetch of one
(endpoint, datatype, expirytype) combination; the source defaults are
`retries = 2`, `delay = 2`. -/
def fetch_post_data (api_obj : Session) (fenv : FetchEnv)
    (endpoint datatype expirytype : String) (retries delay : Nat) :
    Except Fatal DataFrame × List Event :=
  fetchLoop (fun tok => Event.postReq endpoint datatype expirytype tok)
    datatype expirytype endpoint delay
    (retries + 1) api_obj.access_token none fenv.attempts fenv.auths

/-- `fetch_pcr_volume` (source lines 131-178): GET fetch of the fixed
`putCallRatio` endpoint with fixed tag values. -/
def fetch_pcr_volume (api_obj : Session) (fenv : FetchEnv) (retries delay : Nat) :
    Except Fatal DataFrame × List Event :=
  fetchLoop (fun tok => Event.getReq tok)
    "PCR Volume" "N/A" "putCallRatio" delay
    (retries + 1) api_obj.access_token none fenv.attempts fenv.auths

/-- The fixed catalog of the orchestrator (source lines 189-193). -/
def endpoints : List (String × List String) :=
  [("gainersLosers", ["PercOIGainers", "PercOILosers", "PercPriceGainers", "PercPriceLosers"]),
   ("OIBuildup", ["Long Built Up", "Short Built Up", "Short Covering", "Long Unwinding"])]

/-- The three expiry types (source line 193). -/
def expiry_types : List String := ["NEAR", "NEXT", "FAR"]

/-- The 24 POST call specifications `(endpoint, datatype, expirytype)` in the
order the nested loops of `__main__` produce them (endpoint, then expiry,
then datatype). -/
def postCalls : List (String × String × String) :=
  (endpoints.map (fun ed =>
    (expiry_types.map (fun expiry => ed.2.map (fun d => (ed.1, d, expiry)))).flatten)).flatten

/-- The POST-fetch loop of `__main__` (source lines 197-206): invoke
`fetch_post_data` for each call spec with the same session object, collect
the non-empty frames in order, and sleep 1 second after each call.  An
exception escaping a fetch (or an `exit()` inside a re-authentication)
aborts the whole run. -/
def runPostCalls (s : Session) :
    List (String × String × String) → List FetchEnv →
    Except Fatal (List DataFrame) × List Event
  | [], _ => (Except.ok [], [])
  | (e, d, x) :: calls, fenvs =>
    match fetch_post_data s (fenvs.headD ⟨[], []⟩) e d x 2 2 with
    | (Except.error f, evs) => (Except.error f, evs)
    | (Except.ok df, evs) =>
      match runPostCalls s calls fenvs.tail with
      | (Except.error f, evs2) => (Except.error f, evs ++ [Event.sleepEv 1] ++ evs2)
      | (Except.ok dfs, evs2) =>
        (Except.ok (if df.isEmptyDf then dfs else df :: dfs),
         evs ++ [Event.sleepEv 1] ++ evs2)

/-- The fixed output filename (source line 186). -/
def OUTPUT_FILE : String := "AngelMarketData.csv"

/-- Environment of a whole run: the initial authentication environment plus
one fetch environment per call, consumed in call order (24 POST calls, then
the PCR GET call). -/
structure MainEnv where
  auth : AuthEnv
  fetches : List FetchEnv
  deriving Repr, DecidableEq

/-- `__main__` (source lines 181-225): authenticate once (an authentication
failure exits the process before any fetch), run the 24 POST calls, run the
PCR GET call, sleep, and — if any non-empty frame was collected — write the
concatenation of the collected frames (`pd.concat`, row-wise, column union)
to the fixed output file; otherwise write nothing (`none`). -/
def mainRun (env : MainEnv) : Except Fatal (Option (String × DataFrame)) × List Event :=
  match initialize_api env.auth with
  | (Except.error _, aevs) => (Except.error Fatal.authExit, aevs)
  | (Except.ok s, aevs) =>
    match runPostCalls s postCalls env.fetches with
    | (Except.error f, evs) => (Except.error f, aevs ++ evs)
    | (Except.ok dfs, evs) =>
      match fetch_pcr_volume s ((env.fetches.drop 24).headD ⟨[], []⟩) 2 2 with
      | (Except.error f, pevs) => (Except.error f, aevs ++ evs ++ pevs)
      | (Except.ok pdf, pevs) =>
        let all_data := dfs ++ (if pdf.isEmptyDf then [] else [pdf])
        let out : Option (String × DataFrame) :=
          if all_data.isEmpty then none
          else some (OUTPUT_FILE, ⟨(all_data.map DataFrame.rows).flatten⟩)
        (Except.ok out, aevs ++ evs ++ pevs ++ [Event.sleepEv 1])

/-- Column names of a row. -/
def rowKeys (r : Row) : List String := r.map Prod.fst

/-- The column set of a frame (as produced by `pd.concat`'s column union):
every column appearing in some row, without duplicates. -/
def columnsOf (df : DataFrame) : List String := ((df.rows.map rowKeys).flatten).dedup

/-- Look a column up in a row. -/
def getCol (r : Row) (k : String) : Option String :=
  (r.find? (fun p => p.1 = k)).map Prod.snd

/-- The POST request events of a trace, projected to their bearer tokens. -/
def postTokens (evs : List Event) : List String :=
  evs.filterMap (fun e =>
    match e with
    | Event.postReq _ _ _ t => some t
    | _ => none)

/-- The POST request events of a trace, projected to
`(endpoint, datatype, expirytype)`. -/
def postTriples (evs : List Event) : List (String × String × String) :=
  evs.filterMap (fun e =>
    match e with
    | Event.postReq ep d x _ => some (ep, d, x)
    | _ => none)

/-- Number of POST data requests in a trace. -/
def countPost (evs : List Event) : Nat := (postTokens evs).length

/-- Number of GET data requests in a trace. -/
def countGet (evs : List Event) : Nat :=
  (evs.filter (fun e =>
    match e with
    | Event.getReq _ => true
    | _ => false)).length

/-- Number of login requests (authenticator runs that reached the network)
in a trace. -/
def countLogin (evs : List Event) : Nat :=
  (evs.filter (fun e =>
    match e with
    | Event.loginPost => true
    | _ => false)).length


lemma find?_map_overwrite (k v : String) (r : Row) :
    (r.map (fun p => if p.1 = k then (k, v) else p)).find? (fun p => p.1 = k) =
      if r.any (fun p => p.1 = k) then some (k, v) else none := by
  induction r with
  | nil => simp
  | cons p t ih =>
    by_cases hp : p.1 = k
    · simp [List.find?, hp]
    · simp [List.find?, hp, ih]
      rw [decide_eq_false hp, Bool.false_or]

lemma getCol_setKey_self (r : Row) (k v : String) :
    getCol (setKey r k v) k = some v := by
  unfold setKey getCol
  by_cases h : r.any (fun p => p.1 = k)
  · rw [if_pos h, find?_map_overwrite, if_pos h]
    rfl
  · rw [if_neg h]
    have hnone : r.find? (fun p => p.1 = k) = none := by
      rw [List.find?_eq_none]
      intro p hp hc
      exact h (List.any_eq_true.mpr ⟨p, hp, hc⟩)
    rw [List.find?_append, hnone]
    simp [List.find?]

lemma find?_map_overwrite_other (k v q : String) (hq : q ≠ k) (r : Row) :
    (r.map (fun p => if p.1 = k then (k, v) else p)).find? (fun p => p.1 = q) =
      r.find? (fun p => p.1 = q) := by
  have hkq : ¬ k = q := fun hh => hq hh.symm
  induction r with
  | nil => rfl
  | cons p t ih =>
    by_cases hp : p.1 = k
    · have hpq : ¬ p.1 = q := fun hh => hq (hh.symm.trans hp)
      rw [List.map_cons, if_pos hp, List.find?_cons_of_neg _ (by simp [hkq]),
        List.find?_cons_of_neg _ (by simp [hpq])]
      exact ih
    · by_cases hpq : p.1 = q
      · rw [List.map_cons, if_neg hp, List.find?_cons_of_pos _ (by simp [hpq]),
          List.find?_cons_of_pos _ (by simp [hpq])]
      · rw [List.map_cons, if_neg hp, List.find?_cons_of_neg _ (by simp [hpq]),
          List.find?_cons_of_neg _ (by simp [hpq])]
        exact ih

lemma getCol_setKey_other (r : Row) (k v q : String) (hq : q ≠ k) :
    getCol (setKey r k v) q = getCol r q := by
  have hkq : ¬ k = q := fun hh => hq hh.symm
  unfold setKey getCol
  by_cases h : r.any (fun p => p.1 = k)
  · rw [if_pos h, find?_map_overwrite_other k v q hq r]
  · rw [if_neg h, List.find?_append]
    have h2 : List.find? (fun p => decide (p.1 = q)) [(k, v)] = none := by
      simp [List.find?, hkq]
    cases hf : r.find? (fun p => decide (p.1 = q)) <;> simp [hf, h2, Option.orElse]

lemma getCol_tagRow (d x e : String) (r : Row) :
    getCol (tagRow d x e r) "DataType" = some d ∧
    getCol (tagRow d x e r) "ExpiryType" = some x ∧
    getCol (tagRow d x e r) "Endpoint" = some e := by
  refine ⟨?_, ?_, ?_⟩
  · rw [tagRow, getCol_setKey_other _ _ _ _ (by decide), getCol_setKey_other _ _ _ _ (by decide),
      getCol_setKey_self]
  · rw [tagRow, getCol_setKey_other _ _ _ _ (by decide), getCol_setKey_self]
  · rw [tagRow, getCol_setKey_self]



lemma initialize_api_cases (env : AuthEnv) :
    (∃ s, initialize_api env = (Except.ok s, [Event.loginPost])) ∨
    (initialize_api env).1 = Except.error () := by
  rcases env with ⟨cfg, t, lg⟩
  simp only [initialize_api]
  split
  · split
    · rcases lg with _ | ⟨code, body⟩
      · right; rfl
      · simp only
        split
        · right; rfl
        · rcases body with _ | b
          · right; rfl
          · simp only
            split
            · left; exact ⟨_, rfl⟩
            · right; rfl
    · right; rfl
  · right; rfl

lemma initialize_api_ok (env : AuthEnv) (s : Session)
    (h : (initialize_api env).1 = Except.ok s) :
    initialize_api env = (Except.ok s, [Event.loginPost]) := by
  rcases initialize_api_cases env with ⟨s2, heq⟩ | herr
  · rw [heq] at h ⊢
    simp only at h
    cases h
    rfl
  · rw [herr] at h
    cases h

lemma initialize_api_no_fetch (env : AuthEnv) :
    countPost (initialize_api env).2 = 0 ∧ countGet (initialize_api env).2 = 0 := by
  rcases env with ⟨cfg, t, lg⟩
  simp only [initialize_api]
  split
  · split
    · rcases lg with _ | ⟨code, body⟩
      · exact ⟨rfl, rfl⟩
      · simp only
        split
        · exact ⟨rfl, rfl⟩
        · rcases body with _ | b
          · exact ⟨rfl, rfl⟩
          · simp only
            split
            · exact ⟨rfl, rfl⟩
            · exact ⟨rfl, rfl⟩
    · exact ⟨rfl, rfl⟩
  · exact ⟨rfl, rfl⟩

lemma rowKeys_setKey_of_any (r : Row) (k v : String) (h : r.any (fun p => p.1 = k)) :
    rowKeys (setKey r k v) = rowKeys r := by
  simp only [setKey, if_pos h, rowKeys, List.map_map]
  apply List.map_congr_left
  intro p _
  by_cases hp : p.1 = k <;> simp [hp]

lemma mem_rowKeys_setKey (c : String) (r : Row) (k v : String) :
    c ∈ rowKeys (setKey r k v) ↔ c ∈ rowKeys r ∨ c = k := by
  by_cases h : r.any (fun p => p.1 = k)
  · rw [rowKeys_setKey_of_any r k v h]
    constructor
    · exact Or.inl
    · rintro (hc | rfl)
      · exact hc
      · obtain ⟨p, hp, hpk⟩ := List.any_eq_true.mp h
        simp only [decide_eq_true_eq] at hpk
        exact List.mem_map.mpr ⟨p, hp, hpk⟩
  · simp [setKey, if_neg h, rowKeys]

lemma mem_rowKeys_tagRow (c : String) (d x e : String) (r : Row) :
    c ∈ rowKeys (tagRow d x e r) ↔
      c ∈ rowKeys r ∨ c = "DataType" ∨ c = "ExpiryType" ∨ c = "Endpoint" := by
  simp [tagRow, mem_rowKeys_setKey, or_assoc]

lemma mem_columnsOf (c : String) (df : DataFrame) :
    c ∈ columnsOf df ↔ ∃ r ∈ df.rows, c ∈ rowKeys r := by
  simp only [columnsOf, List.mem_dedup, List.mem_flatten, List.mem_map]
  constructor
  · rintro ⟨l, ⟨r, hr, rfl⟩, hc⟩
    exact ⟨r, hr, hc⟩
  · rintro ⟨r, hr, hc⟩
    exact ⟨rowKeys r, ⟨r, hr, rfl⟩, hc⟩

/-- An attempt outcome that the HTTP-error handler of the fetch loop can
process without crashing: a response with an error status code that is not
a 403 with an unparseable body. -/
def errAttempt (a : ReqResult) : Prop :=
  ∃ r, a = ReqResult.ok r ∧ 400 ≤ r.status_code ∧ ¬(r.status_code = 403 ∧ r.body = none)

/-- An authentication environment under which `initialize_api` succeeds. -/
def authOk (aEnv : AuthEnv) : Prop :=
  ∃ s evs, initialize_api aEnv = (Except.ok s, evs)

lemma fetchLoop_exhaust (mkReq : String → Event) (d x e : String) (delay : Nat) :
    ∀ (n : Nat) (tok : String) (rv : Option Response)
      (atts : List ReqResult) (auths : List AuthEnv),
      (∀ a ∈ atts, errAttempt a) → (∀ aEnv ∈ auths, authOk aEnv) →
      n ≤ auths.length + 1 →
      (fetchLoop mkReq d x e delay n tok rv atts auths).1 = Except.ok ⟨[]⟩ := by
  intro n
  induction n with
  | zero => intro tok rv atts auths _ _ _; rfl
  | succ m ih =>
    intro tok rv atts auths hatts hauths hlen
    match atts with
    | [] =>
      simp only [fetchLoop, List.headD]
    | a :: rest =>
      obtain ⟨r, rfl, hge, hnot⟩ := hatts a (by simp)
      simp only [fetchLoop, List.headD]
      rw [if_pos hge, if_neg hnot]
      by_cases hm : m = 0
      · subst hm; simp
      · rw [if_neg hm]
        match auths with
        | [] => simp at hlen; omega
        | aEnv :: arest =>
          obtain ⟨s2, aevs, heq⟩ := hauths aEnv (by simp)
          simp only [List.headD, heq, List.tail_cons]
          exact ih s2.access_token (some r) rest arest
            (fun q hq => hatts q (List.mem_cons_of_mem _ hq))
            (fun q hq => hauths q (List.mem_cons_of_mem _ hq))
            (by simp at hlen; omega)

/-- A mock authentication environment whose login succeeds with token `t`. -/
def okAuth (t : String) : AuthEnv :=
  ⟨⟨some "k", some "u", some "m", some "s"⟩, true,
   LoginResult.resp 200 (some ⟨true, some t, "ok"⟩)⟩

/-- A mock fetch environment: one attempt, 2xx, `status` true, one data
row `r`. -/
def okEnv (r : Row) : FetchEnv := ⟨[ReqResult.ok ⟨200, some ⟨true, some [r]⟩⟩], []⟩

/-- A mock fetch environment: one attempt, 2xx, `status` true, empty data
array. -/
def emptyEnv : FetchEnv := ⟨[ReqResult.ok ⟨200, some ⟨true, some []⟩⟩], []⟩

/-- The run environment in which every one of the 25 calls succeeds with
exactly one data row, the row of call `i` being `f i`. -/
def oneRowEnv (f : Nat → Row) : MainEnv :=
  ⟨okAuth "T1", (List.range 25).map (fun i => okEnv (f i))⟩

/-- The frame the run on `oneRowEnv f` is expected to write: the 24 POST
rows tagged with their call's labels in call order, then the PCR row. -/
def taggedOneRowFrame (f : Nat → Row) : DataFrame :=
  ⟨[tagRow "PercOIGainers" "NEAR" "gainersLosers" (f 0),
    tagRow "PercOILosers" "NEAR" "gainersLosers" (f 1),
    tagRow "PercPriceGainers" "NEAR" "gainersLosers" (f 2),
    tagRow "PercPriceLosers" "NEAR" "gainersLosers" (f 3),
    tagRow "PercOIGainers" "NEXT" "gainersLosers" (f 4),
    tagRow "PercOILosers" "NEXT" "gainersLosers" (f 5),
    tagRow "PercPriceGainers" "NEXT" "gainersLosers" (f 6),
    tagRow "PercPriceLosers" "NEXT" "gainersLosers" (f 7),
    tagRow "PercOIGainers" "FAR" "gainersLosers" (f 8),
    tagRow "PercOILosers" "FAR" "gainersLosers" (f 9),
    tagRow "PercPriceGainers" "FAR" "gainersLosers" (f 10),
    tagRow "PercPriceLosers" "FAR" "gainersLosers" (f 11),
    tagRow "Long Built Up" "NEAR" "OIBuildup" (f 12),
    tagRow "Short Built Up" "NEAR" "OIBuildup" (f 13),
    tagRow "Short Covering" "NEAR" "OIBuildup" (f 14),
    tagRow "Long Unwinding" "NEAR" "OIBuildup" (f 15),
    tagRow "Long Built Up" "NEXT" "OIBuildup" (f 16),
    tagRow "Short Built Up" "NEXT" "OIBuildup" (f 17),
    tagRow "Short Covering" "NEXT" "OIBuildup" (f 18),
    tagRow "Long Unwinding" "NEXT" "OIBuildup" (f 19),
    tagRow "Long Built Up" "FAR" "OIBuildup" (f 20),
    tagRow "Short Built Up" "FAR" "OIBuildup" (f 21),
    tagRow "Short Covering" "FAR" "OIBuildup" (f 22),
    tagRow "Long Unwinding" "FAR" "OIBuildup" (f 23),
    tagRow "PCR Volume" "N/A" "putCallRatio" (f 24)]⟩

lemma fetchLoop_trace_head (mkReq : String → Event) (d x e : String) (delay n : Nat)
    (tok : String) (rv : Option Response) (atts : List ReqResult) (auths : List AuthEnv) :
    ∃ tl, (fetchLoop mkReq d x e delay (n + 1) tok rv atts auths).2 = mkReq tok :: tl := by
  simp only [fetchLoop]
  cases hA : atts.headD ReqResult.raiseOther <;> simp only [hA] <;> repeat' split
  all_goals exact ⟨_, rfl⟩


lemma fetch_retry_trace (s s2 : Session) (e d x : String) (k delay : Nat) (r1 : Response)
    (rows : List Row) (aEnv : AuthEnv)
    (h1 : 400 ≤ r1.status_code) (h2 : r1.status_code = 403 → r1.body ≠ none)
    (hauth : (initialize_api aEnv).1 = Except.ok s2) (hrows : rows ≠ []) :
    fetch_post_data s
        ⟨[ReqResult.ok r1, ReqResult.ok ⟨200, some ⟨true, some rows⟩⟩], [aEnv]⟩
        e d x (k + 1) delay =
      (Except.ok ⟨rows.map (tagRow d x e)⟩,
       [Event.postReq e d x s.access_token] ++
         (if r1.status_code = 403 then [Event.log403 r1] else []) ++
         [Event.sleepEv delay] ++ [Event.loginPost] ++
         [Event.postReq e d x s2.access_token]) := by
  have haeq := initialize_api_ok aEnv s2 hauth
  simp only [fetch_post_data, fetchLoop, List.headD]
  rw [if_pos h1, if_neg (fun hc => h2 hc.1 hc.2), if_neg (by omega : ¬ k + 1 = 0)]
  rw [haeq]
  simp only [List.tail_cons]
  simp [hrows]

lemma fetch_first_request (s : Session) (fe : FetchEnv) (e d x : String) :
    ∃ tl, (fetch_post_data s fe e d x 2 2).2 =
      Event.postReq e d x s.access_token :: tl :=
  fetchLoop_trace_head _ d x e 2 2 s.access_token none fe.attempts fe.auths

/-- C1: on an HTTP error during a POST data fetch, when retry attempts
remain the fetcher sleeps for the configured delay, re-runs the full
authenticator exactly once (one `loginPost` event between the two request
events), and retries carrying the fresh session's token; when the first
attempt fails with an HTTP error and the second succeeds with data, the
result is the non-empty tagged frame.  When all `retries + 1` attempts
(three, at the source default `retries = 2`) are exhausted by HTTP errors,
the fetcher returns an empty frame. -/
theorem C1_http_error_retry_then_reauth :
    (∀ (s s2 : Session) (e d x : String) (k delay : Nat) (r1 : Response)
       (rows : List Row) (aEnv : AuthEnv),
       400 ≤ r1.status_code → (r1.status_code = 403 → r1.body ≠ none) →
       (initialize_api aEnv).1 = Except.ok s2 → rows ≠ [] →
       fetch_post_data s
           ⟨[ReqResult.ok r1, ReqResult.ok ⟨200, some ⟨true, some rows⟩⟩], [aEnv]⟩
           e d x (k + 1) delay =
         (Except.ok ⟨rows.map (tagRow d x e)⟩,
          [Event.postReq e d x s.access_token] ++
            (if r1.status_code = 403 then [Event.log403 r1] else []) ++
            [Event.sleepEv delay] ++ [Event.loginPost] ++
            [Event.postReq e d x s2.access_token]) ∧
       rows.map (tagRow d x e) ≠ []) ∧
    (∀ (s : Session) (e d x : String) (delay : Nat) (e1 e2 e3 : Response)
       (a1 a2 : AuthEnv),
       errAttempt (ReqResult.ok e1) → errAttempt (ReqResult.ok e2) →
       errAttempt (ReqResult.ok e3) → authOk a1 → authOk a2 →
       (fetch_post_data s ⟨[ReqResult.ok e1, ReqResult.ok e2, ReqResult.ok e3], [a1, a2]⟩
           e d x 2 delay).1 = Except.ok ⟨[]⟩) := by
  constructor
  · intro s s2 e d x k delay r1 rows aEnv h1 h2 hauth hrows
    refine ⟨fetch_retry_trace s s2 e d x k delay r1 rows aEnv h1 h2 hauth hrows, ?_⟩
    intro hmap
    exact hrows (by simpa using hmap)
  · intro s e d x delay e1 e2 e3 a1 a2 h1 h2 h3 ha1 ha2
    refine fetchLoop_exhaust _ d x e delay 3 s.access_token none _ _ ?_ ?_ (by simp)
    · intro a ha
      simp only [List.mem_cons, List.not_mem_nil, or_false] at ha
      rcases ha with rfl | rfl | rfl <;> assumption
    · intro aEnv ha
      simp only [List.mem_cons, List.not_mem_nil, or_false] at ha
      rcases ha with rfl | rfl <;> assumption

/-- Witness for C1: a 500 response followed by a success with one row
yields the tagged row after one re-authentication; three straight 500
responses yield the empty frame. -/
theorem C1_witness :
    (fetch_post_data ⟨"T1"⟩
        ⟨[ReqResult.ok ⟨500, none⟩,
          ReqResult.ok ⟨200, some ⟨true, some [[("A", "1")]]⟩⟩], [okAuth "T2"]⟩
        "gainersLosers" "PercOIGainers" "NEAR" (1 + 1) 2 =
      (Except.ok ⟨[tagRow "PercOIGainers" "NEAR" "gainersLosers" [("A", "1")]]⟩,
       [Event.postReq "gainersLosers" "PercOIGainers" "NEAR" "T1", Event.sleepEv 2,
        Event.loginPost, Event.postReq "gainersLosers" "PercOIGainers" "NEAR" "T2"])) ∧
    (fetch_post_data ⟨"T1"⟩
        ⟨[ReqResult.ok ⟨500, none⟩, ReqResult.ok ⟨502, none⟩, ReqResult.ok ⟨503, none⟩],
          [okAuth "T2", okAuth "T3"]⟩
        "gainersLosers" "PercOIGainers" "NEAR" 2 2).1 = Except.ok ⟨[]⟩ := by
  constructor
  · exact (C1_http_error_retry_then_reauth.1 ⟨"T1"⟩ ⟨"T2"⟩
      "gainersLosers" "PercOIGainers" "NEAR" 1 2 ⟨500, none⟩ [[("A", "1")]] (okAuth "T2")
      (by decide) (by simp) rfl (by decide)).1
  · exact C1_http_error_retry_then_reauth.2 ⟨"T1"⟩
      "gainersLosers" "PercOIGainers" "NEAR" 2 ⟨500, none⟩ ⟨502, none⟩ ⟨503, none⟩
      (okAuth "T2") (okAuth "T3")
      ⟨⟨500, none⟩, rfl, by decide, by decide⟩
      ⟨⟨502, none⟩, rfl, by decide, by decide⟩
      ⟨⟨503, none⟩, rfl, by decide, by decide⟩
      ⟨⟨"T2"⟩, [Event.loginPost], rfl⟩ ⟨⟨"T3"⟩, [Event.loginPost], rfl⟩

/-- The fetch environment of a call whose first attempt gets a 500, whose
re-authentication yields the session with token `T2`, and whose second
attempt succeeds with one row. -/
def reauthEnv : FetchEnv :=
  ⟨[ReqResult.ok ⟨500, none⟩, ReqResult.ok ⟨200, some ⟨true, some [[("A", "1")]]⟩⟩],
   [okAuth "T2"]⟩

/-- A whole-run environment: initial login yields token `T1`, the first
fetch call re-authenticates to token `T2`, the remaining 24 calls return
empty data. -/
def envC2 : MainEnv := ⟨okAuth "T1", reauthEnv :: List.replicate 24 emptyEnv⟩

/-- Counterexample to C2: in the run on `envC2` re-authentication happens
during the first fetch call (two login requests in total) and produces the
session with token `T2`, whose token the in-call retry carries (request
index 1); yet the next fetch call's request (index 2) carries the original
token `T1`, not the new session's token — the rebinding of the session is
local to `fetch_post_data`, so after a fetch call in which
re-authentication occurred, subsequent requests do NOT use the new
session. -/
theorem C2_counterexample :
    countLogin (mainRun envC2).2 = 2 ∧
    (postTokens (mainRun envC2).2)[0]? = some "T1" ∧
    (postTokens (mainRun envC2).2)[1]? = some "T2" ∧
    (postTokens (mainRun envC2).2)[2]? = some "T1" ∧
    ("T1" : String) ≠ "T2" :=
  ⟨rfl, rfl, rfl, rfl, by decide⟩

/-- C2 (amended): on re-authentication inside a data fetch the single
session variable is rebound, not merged, but the rebinding is local to that
fetch call: the remaining attempts of the same call carry the new session's
token, while the orchestrator keeps handing every fetch call the original
session, so the first request of the call after a re-authenticating call
again carries the original token. -/
theorem C2_session_rebound_locally :
    (∀ (s s2 : Session) (e d x : String) (k delay : Nat) (r1 : Response)
       (rows : List Row) (aEnv : AuthEnv),
       400 ≤ r1.status_code → (r1.status_code = 403 → r1.body ≠ none) →
       (initialize_api aEnv).1 = Except.ok s2 → rows ≠ [] →
       postTokens (fetch_post_data s
           ⟨[ReqResult.ok r1, ReqResult.ok ⟨200, some ⟨true, some rows⟩⟩], [aEnv]⟩
           e d x (k + 1) delay).2 = [s.access_token, s2.access_token]) ∧
    (∀ (s s2 : Session) (e1 d1 x1 e2 d2 x2 : String)
       (cs : List (String × String × String)) (r1 : Response) (rows : List Row)
       (aEnv : AuthEnv) (fe2 : FetchEnv) (fes : List FetchEnv),
       400 ≤ r1.status_code → (r1.status_code = 403 → r1.body ≠ none) →
       (initialize_api aEnv).1 = Except.ok s2 → rows ≠ [] →
       (postTokens (runPostCalls s ((e1, d1, x1) :: (e2, d2, x2) :: cs)
           (⟨[ReqResult.ok r1, ReqResult.ok ⟨200, some ⟨true, some rows⟩⟩], [aEnv]⟩ ::
             fe2 :: fes)).2).take 3 =
         [s.access_token, s2.access_token, s.access_token]) := by
  constructor
  · intro s s2 e d x k delay r1 rows aEnv h1 h2 hauth hrows
    rw [fetch_retry_trace s s2 e d x k delay r1 rows aEnv h1 h2 hauth hrows]
    by_cases h403 : r1.status_code = 403 <;> simp [postTokens, h403]
  · intro s s2 e1 d1 x1 e2 d2 x2 cs r1 rows aEnv fe2 fes h1 h2 hauth hrows
    have hcall1 := fetch_retry_trace s s2 e1 d1 x1 1 2 r1 rows aEnv h1 h2 hauth hrows
    obtain ⟨tl2, htl2⟩ := fetch_first_request s fe2 e2 d2 x2
    simp only [runPostCalls, List.headD, List.tail_cons]
    rw [hcall1]
    have hne : (DataFrame.mk (rows.map (tagRow d1 x1 e1))).isEmptyDf = false := by
      simp [DataFrame.isEmptyDf, hrows]
    rcases hf2 : fetch_post_data s fe2 e2 d2 x2 2 2 with ⟨res2, evs2⟩
    rw [hf2] at htl2
    simp only at htl2
    subst htl2
    rcases res2 with f2 | df2
    · by_cases h403 : r1.status_code = 403 <;>
        simp [postTokens, List.filterMap_append, h403, List.take]
    · rcases hrest : runPostCalls s cs fes with ⟨res3, evs3⟩
      rcases res3 with f3 | dfs3 <;>
      · by_cases h403 : r1.status_code = 403 <;>
          simp [hrest, postTokens, List.filterMap_append, h403, List.take, hne]

/-- Witness for the amended C2: with initial token `T1` and
re-authentication to `T2`, the re-authenticating call's requests carry
`T1` then `T2`, and the first three requests of the two-call sequence
carry `T1`, `T2`, `T1`. -/
theorem C2_witness :
    postTokens (fetch_post_data ⟨"T1"⟩ reauthEnv "gainersLosers" "PercOIGainers" "NEAR"
        (1 + 1) 2).2 = ["T1", "T2"] ∧
    (postTokens (runPostCalls ⟨"T1"⟩
        [("gainersLosers", "PercOIGainers", "NEAR"), ("gainersLosers", "PercOILosers", "NEAR")]
        [reauthEnv, emptyEnv]).2).take 3 = ["T1", "T2", "T1"] := by
  constructor
  · exact C2_session_rebound_locally.1 ⟨"T1"⟩ ⟨"T2"⟩
      "gainersLosers" "PercOIGainers" "NEAR" 1 2 ⟨500, none⟩ [[("A", "1")]] (okAuth "T2")
      (by decide) (by simp) rfl (by decide)
  · exact C2_session_rebound_locally.2 ⟨"T1"⟩ ⟨"T2"⟩
      "gainersLosers" "PercOIGainers" "NEAR" "gainersLosers" "PercOILosers" "NEAR" []
      ⟨500, none⟩ [[("A", "1")]] (okAuth "T2") emptyEnv []
      (by decide) (by simp) rfl (by decide)

/-- C3: in a run in which every call succeeds with one row (`f i` for call
`i`), the orchestrator makes exactly the 24 catalogued POST fetches — the
two endpoints' datatype sets crossed with NEAR, NEXT, FAR in loop order —
plus exactly one GET fetch, and the written output is the fixed CSV file
holding exactly 25 rows whose column set is the union of all per-call row
columns together with the tag columns DataType, ExpiryType, Endpoint. -/
theorem C3_catalog_and_output_shape (f : Nat → Row) :
    (mainRun (oneRowEnv f)).1 = Except.ok (some (OUTPUT_FILE, taggedOneRowFrame f)) ∧
    (taggedOneRowFrame f).rows.length = 25 ∧
    postTriples (mainRun (oneRowEnv f)).2 =
      [("gainersLosers", "PercOIGainers", "NEAR"), ("gainersLosers", "PercOILosers", "NEAR"),
       ("gainersLosers", "PercPriceGainers", "NEAR"), ("gainersLosers", "PercPriceLosers", "NEAR"),
       ("gainersLosers", "PercOIGainers", "NEXT"), ("gainersLosers", "PercOILosers", "NEXT"),
       ("gainersLosers", "PercPriceGainers", "NEXT"), ("gainersLosers", "PercPriceLosers", "NEXT"),
       ("gainersLosers", "PercOIGainers", "FAR"), ("gainersLosers", "PercOILosers", "FAR"),
       ("gainersLosers", "PercPriceGainers", "FAR"), ("gainersLosers", "PercPriceLosers", "FAR"),
       ("OIBuildup", "Long Built Up", "NEAR"), ("OIBuildup", "Short Built Up", "NEAR"),
       ("OIBuildup", "Short Covering", "NEAR"), ("OIBuildup", "Long Unwinding", "NEAR"),
       ("OIBuildup", "Long Built Up", "NEXT"), ("OIBuildup", "Short Built Up", "NEXT"),
       ("OIBuildup", "Short Covering", "NEXT"), ("OIBuildup", "Long Unwinding", "NEXT"),
       ("OIBuildup", "Long Built Up", "FAR"), ("OIBuildup", "Short Built Up", "FAR"),
       ("OIBuildup", "Short Covering", "FAR"), ("OIBuildup", "Long Unwinding", "FAR")] ∧
    countPost (mainRun (oneRowEnv f)).2 = 24 ∧
    countGet (mainRun (oneRowEnv f)).2 = 1 ∧
    ∀ c, c ∈ columnsOf (taggedOneRowFrame f) ↔
      (c = "DataType" ∨ c = "ExpiryType" ∨ c = "Endpoint" ∨
       ∃ i, i < 25 ∧ c ∈ rowKeys (f i)) := by
  refine ⟨rfl, rfl, rfl, rfl, rfl, ?_⟩
  intro c
  have hiff : (∃ i, i < 25 ∧ c ∈ rowKeys (f i)) ↔ ∃ i ∈ List.range 25, c ∈ rowKeys (f i) := by
    simp [List.mem_range]
  have hrange : List.range 25 =
      [0, 1, 2, 3, 4, 5, 6, 7, 8, 9, 10, 11, 12,
       13, 14, 15, 16, 17, 18, 19, 20, 21, 22, 23, 24] := rfl
  rw [hiff, hrange, mem_columnsOf]
  simp only [taggedOneRowFrame, List.mem_cons, List.not_mem_nil, or_false, exists_eq_or_imp,
    exists_eq_left, mem_rowKeys_tagRow]
  by_cases hD : c = "DataType"
  · simp [hD]
  · by_cases hX : c = "ExpiryType"
    · simp [hX]
    · by_cases hE : c = "Endpoint"
      · simp [hE]
      · simp [hD, hX, hE]

/-- C4: whenever at least one of the four required configuration values is
missing (or empty), `initialize_api` exits with an empty event trace — no
network request of any kind is made — and the whole run terminates with no
events at all. -/
theorem C4_missing_credentials_abort (aEnv : AuthEnv) (fes : List FetchEnv)
    (h : credsOk aEnv.config = false) :
    initialize_api aEnv = (Except.error (), []) ∧
    (mainRun ⟨aEnv, fes⟩).1 = Except.error Fatal.authExit ∧
    (mainRun ⟨aEnv, fes⟩).2 = [] := by
  have h1 : initialize_api aEnv = (Except.error (), []) := by
    rcases aEnv with ⟨cfg, t, lg⟩
    simp only at h
    simp [initialize_api, h]
  exact ⟨h1, by simp [mainRun, h1], by simp [mainRun, h1]⟩

/-- Witness for C4: each of the four single-missing-credential
configurations aborts the run with an empty event trace. -/
theorem C4_witness :
    ((mainRun ⟨⟨⟨none, some "u", some "m", some "s"⟩, true, LoginResult.raiseExc⟩, []⟩).2 = []) ∧
    ((mainRun ⟨⟨⟨some "k", none, some "m", some "s"⟩, true, LoginResult.raiseExc⟩, []⟩).2 = []) ∧
    ((mainRun ⟨⟨⟨some "k", some "u", none, some "s"⟩, true, LoginResult.raiseExc⟩, []⟩).2 = []) ∧
    ((mainRun ⟨⟨⟨some "k", some "u", some "m", none⟩, true, LoginResult.raiseExc⟩, []⟩).2 = []) :=
  ⟨(C4_missing_credentials_abort _ [] (by decide)).2.2,
   (C4_missing_credentials_abort _ [] (by decide)).2.2,
   (C4_missing_credentials_abort _ [] (by decide)).2.2,
   (C4_missing_credentials_abort _ [] (by decide)).2.2⟩

/-- C5: every failure mode of the authenticator — missing configuration,
TOTP-generation error, an exception during the login request, a non-2xx
login response, an unparseable body, a false status flag or a missing
token — makes `initialize_api` end in the process-exit outcome (no session
value is produced and, the exit being modelled as a value, nothing
propagates as an exception); and whenever the authenticator exits, the run
stops with no POST or GET data fetch ever attempted. -/
theorem C5_auth_failure_exits_before_fetch :
    (∀ env : AuthEnv, credsOk env.config = false → (initialize_api env).1 = Except.error ()) ∧
    (∀ env : AuthEnv, env.totpOk = false → (initialize_api env).1 = Except.error ()) ∧
    (∀ env : AuthEnv, env.login = LoginResult.raiseExc →
      (initialize_api env).1 = Except.error ()) ∧
    (∀ (env : AuthEnv) (code : Nat) (body : Option LoginBody),
      env.login = LoginResult.resp code body → 400 ≤ code →
      (initialize_api env).1 = Except.error ()) ∧
    (∀ (env : AuthEnv) (code : Nat), env.login = LoginResult.resp code none →
      (initialize_api env).1 = Except.error ()) ∧
    (∀ (env : AuthEnv) (code : Nat) (b : LoginBody),
      env.login = LoginResult.resp code (some b) →
      (b.status = false ∨ truthy b.jwtToken = false) →
      (initialize_api env).1 = Except.error ()) ∧
    (∀ menv : MainEnv, (initialize_api menv.auth).1 = Except.error () →
      (mainRun menv).1 = Except.error Fatal.authExit ∧
      countPost (mainRun menv).2 = 0 ∧ countGet (mainRun menv).2 = 0) := by
  refine ⟨?_, ?_, ?_, ?_, ?_, ?_, ?_⟩
  · rintro ⟨cfg, t, lg⟩ h
    simp only at h
    simp [initialize_api, h]
  · rintro ⟨cfg, t, lg⟩ h
    simp only at h
    simp [initialize_api, h]
  · rintro ⟨cfg, t, lg⟩ h
    simp only at h
    subst h
    simp only [initialize_api]
    split
    · split
      · rfl
      · rfl
    · rfl
  · rintro ⟨cfg, t, lg⟩ code body h hcode
    simp only at h
    subst h
    simp only [initialize_api]
    repeat' split
    all_goals first | rfl | omega
  · rintro ⟨cfg, t, lg⟩ code h
    simp only at h
    subst h
    simp only [initialize_api]
    repeat' split
    all_goals rfl
  · rintro ⟨cfg, t, lg⟩ code b h hb
    simp only at h
    subst h
    simp only [initialize_api]
    repeat' split
    all_goals first | rfl | (rcases hb with hb | hb <;> simp_all)
  · intro menv h
    rcases hp : initialize_api menv.auth with ⟨res, aevs⟩
    rw [hp] at h
    simp only at h
    subst h
    have hcounts := initialize_api_no_fetch menv.auth
    rw [hp] at hcounts
    simp only at hcounts
    refine ⟨?_, ?_, ?_⟩ <;> simp [mainRun, hp, hcounts.1, hcounts.2]

/-- Witness for C5: a login response with a false status flag produces the
exit outcome, and the run on that environment makes no data fetch. -/
theorem C5_witness :
    (initialize_api ⟨⟨some "k", some "u", some "m", some "s"⟩, true,
        LoginResult.resp 200 (some ⟨false, some "tok", "rejected"⟩)⟩).1 = Except.error () ∧
    countPost (mainRun ⟨⟨⟨some "k", some "u", some "m", some "s"⟩, true,
        LoginResult.resp 200 (some ⟨false, some "tok", "rejected"⟩)⟩, []⟩).2 = 0 := by
  constructor
  · exact C5_auth_failure_exits_before_fetch.2.2.2.2.2.1 _ 200
      ⟨false, some "tok", "rejected"⟩ rfl (Or.inl rfl)
  · exact (C5_auth_failure_exits_before_fetch.2.2.2.2.2.2 _
      (C5_auth_failure_exits_before_fetch.2.2.2.2.2.1 _ 200
        ⟨false, some "tok", "rejected"⟩ rfl (Or.inl rfl))).2.1

/-- C6: a POST fetch whose first response is 2xx with a true status flag
and a non-empty data array of N records returns exactly those N rows —
one request event, no retry — each row carrying DataType, ExpiryType and
Endpoint columns equal to the arguments passed to the fetcher. -/
theorem C6_success_rows_tagged (s : Session) (e d x : String)
    (retries delay code : Nat) (rows : List Row)
    (rest : List ReqResult) (auths : List AuthEnv)
    (hcode : code < 400) (hrows : rows ≠ []) :
    fetch_post_data s ⟨ReqResult.ok ⟨code, some ⟨true, some rows⟩⟩ :: rest, auths⟩
        e d x retries delay =
      (Except.ok ⟨rows.map (tagRow d x e)⟩, [Event.postReq e d x s.access_token]) ∧
    (rows.map (tagRow d x e)).length = rows.length ∧
    ∀ row ∈ rows.map (tagRow d x e),
      getCol row "DataType" = some d ∧ getCol row "ExpiryType" = some x ∧
      getCol row "Endpoint" = some e := by
  refine ⟨?_, List.length_map _ _, ?_⟩
  · simp only [fetch_post_data, fetchLoop, List.headD]
    rw [if_neg (by omega)]
    simp [hrows]
  · intro row hrow
    obtain ⟨r0, _, rfl⟩ := List.mem_map.mp hrow
    exact getCol_tagRow d x e r0

/-- Witness for C6: a 200 response with two rows yields the two tagged
rows from a single request. -/
theorem C6_witness :
    fetch_post_data ⟨"T"⟩
        ⟨[ReqResult.ok ⟨200, some ⟨true, some [[("A", "1")], [("B", "2")]]⟩⟩], []⟩
        "OIBuildup" "Long Built Up" "FAR" 2 2 =
      (Except.ok ⟨[tagRow "Long Built Up" "FAR" "OIBuildup" [("A", "1")],
                   tagRow "Long Built Up" "FAR" "OIBuildup" [("B", "2")]]⟩,
       [Event.postReq "OIBuildup" "Long Built Up" "FAR" "T"]) :=
  (C6_success_rows_tagged ⟨"T"⟩ "OIBuildup" "Long Built Up" "FAR" 2 2 200
    [[("A", "1")], [("B", "2")]] [] [] (by decide) (by decide)).1

/-- C7: a POST fetch whose first response is 2xx but carries a false
status flag, a missing data key, or an empty data array returns the empty
frame immediately: the trace holds exactly one request event and no
retry or re-authentication happens. -/
theorem C7_empty_success_no_retry (s : Session) (e d x : String)
    (retries delay code : Nat) (b : RespBody)
    (rest : List ReqResult) (auths : List AuthEnv)
    (hcode : code < 400)
    (hb : b.status = false ∨ b.data = none ∨ b.data = some []) :
    fetch_post_data s ⟨ReqResult.ok ⟨code, some b⟩ :: rest, auths⟩ e d x retries delay =
      (Except.ok ⟨[]⟩, [Event.postReq e d x s.access_token]) ∧
    countPost (fetch_post_data s ⟨ReqResult.ok ⟨code, some b⟩ :: rest, auths⟩
        e d x retries delay).2 = 1 ∧
    countLogin (fetch_post_data s ⟨ReqResult.ok ⟨code, some b⟩ :: rest, auths⟩
        e d x retries delay).2 = 0 := by
  have heq : fetch_post_data s ⟨ReqResult.ok ⟨code, some b⟩ :: rest, auths⟩ e d x
      retries delay = (Except.ok ⟨[]⟩, [Event.postReq e d x s.access_token]) := by
    simp only [fetch_post_data, fetchLoop, List.headD]
    rw [if_neg (by omega)]
    rcases hb with hb | hb | hb
    · rcases b with ⟨st, bdata⟩
      simp only at hb
      subst hb
      rcases bdata with _ | rws
      · simp
      · simp
    · simp [hb]
    · rcases b with ⟨st, bdata⟩
      simp only at hb
      subst hb
      simp
  rw [heq]
  exact ⟨rfl, rfl, rfl⟩

/-- Witness for C7: a 200 response with status true and an empty data
array yields the empty frame from a single request, with no login. -/
theorem C7_witness :
    fetch_post_data ⟨"T"⟩ ⟨[ReqResult.ok ⟨200, some ⟨true, some []⟩⟩], []⟩
        "gainersLosers" "PercOILosers" "NEXT" 2 2 =
      (Except.ok ⟨[]⟩, [Event.postReq "gainersLosers" "PercOILosers" "NEXT" "T"]) :=
  (C7_empty_success_no_retry ⟨"T"⟩ "gainersLosers" "PercOILosers" "NEXT" 2 2 200
    ⟨true, some []⟩ [] [] (by decide) (Or.inr (Or.inr rfl))).1

/-- C8: a non-HTTP exception during the request makes the fetcher return
the empty frame at once — one request event, no retry, no crash — and a
run whose first call fails this way still performs all remaining calls
(24 POST requests and the GET request happen) and completes. -/
theorem C8_other_exception_no_retry :
    (∀ (s : Session) (e d x : String) (retries delay : Nat)
       (rest : List ReqResult) (auths : List AuthEnv),
       fetch_post_data s ⟨ReqResult.raiseOther :: rest, auths⟩ e d x retries delay =
         (Except.ok ⟨[]⟩, [Event.postReq e d x s.access_token])) ∧
    ((mainRun ⟨okAuth "T1", ⟨[ReqResult.raiseOther], []⟩ :: List.replicate 24 emptyEnv⟩).1 =
       Except.ok none ∧
     countPost (mainRun ⟨okAuth "T1",
         ⟨[ReqResult.raiseOther], []⟩ :: List.replicate 24 emptyEnv⟩).2 = 24 ∧
     countGet (mainRun ⟨okAuth "T1",
         ⟨[ReqResult.raiseOther], []⟩ :: List.replicate 24 emptyEnv⟩).2 = 1) :=
  ⟨fun _ _ _ _ _ _ _ _ => rfl, rfl, rfl, rfl⟩

/-- C9: a run in which all 25 calls yield empty results writes nothing,
while a run with some non-empty results writes exactly the concatenation
of the non-empty frames, in call order, to the fixed output filename. -/
theorem C9_write_only_nonempty :
    (∀ (aEnv : AuthEnv) (s : Session), (initialize_api aEnv).1 = Except.ok s →
      (mainRun ⟨aEnv, List.replicate 25 emptyEnv⟩).1 = Except.ok none) ∧
    (∀ (aEnv : AuthEnv) (s : Session) (R1 : List Row) (r25 : Row),
      (initialize_api aEnv).1 = Except.ok s → R1 ≠ [] →
      (mainRun ⟨aEnv, ⟨[ReqResult.ok ⟨200, some ⟨true, some R1⟩⟩], []⟩ ::
          (List.replicate 23 emptyEnv ++ [okEnv r25])⟩).1 =
        Except.ok (some (OUTPUT_FILE,
          ⟨R1.map (tagRow "PercOIGainers" "NEAR" "gainersLosers") ++
           [tagRow "PCR Volume" "N/A" "putCallRatio" r25]⟩))) := by
  constructor
  · intro aEnv s h
    have haeq := initialize_api_ok aEnv s h
    simp only [mainRun, haeq]
    rfl
  · intro aEnv s R1 r25 h hR1
    have haeq := initialize_api_ok aEnv s h
    rcases R1 with _ | ⟨r, t⟩
    · exact absurd rfl hR1
    · simp only [mainRun, haeq]
      rfl

/-- Witness for C9: with the successful mock login, the all-empty run
writes nothing and the two-nonempty-calls run writes exactly those tagged
rows. -/
theorem C9_witness :
    (mainRun ⟨okAuth "T1", List.replicate 25 emptyEnv⟩).1 = Except.ok none ∧
    (mainRun ⟨okAuth "T1", ⟨[ReqResult.ok ⟨200, some ⟨true, some [[("A", "1")]]⟩⟩], []⟩ ::
        (List.replicate 23 emptyEnv ++ [okEnv [("P", "2")]])⟩).1 =
      Except.ok (some (OUTPUT_FILE,
        ⟨[tagRow "PercOIGainers" "NEAR" "gainersLosers" [("A", "1")],
          tagRow "PCR Volume" "N/A" "putCallRatio" [("P", "2")]]⟩)) :=
  ⟨C9_write_only_nonempty.1 (okAuth "T1") ⟨"T1"⟩ rfl,
   C9_write_only_nonempty.2 (okAuth "T1") ⟨"T1"⟩ [[("A", "1")]] [("P", "2")] rfl (by decide)⟩

/-- C10: in the HTTP-error handler of a data fetch, the 403-detail log is
built from the local `response` variable, which a request that raises
without producing a response leaves holding the PREVIOUS attempt's
response: after a 403 first attempt, a second attempt that raises an
`HTTPError` without a response logs the FIRST attempt's response again;
and on a first attempt that raises without a response, the handler reads
the variable before it was ever bound, crashing the fetch (and with it the
run) instead of retrying.  The GET fetcher shares the flaw. -/
theorem C10_stale_response_in_handler :
    (∀ (s s2 : Session) (e d x : String) (delay : Nat) (r1 : Response) (aEnv : AuthEnv),
       r1.status_code = 403 → r1.body ≠ none → (initialize_api aEnv).1 = Except.ok s2 →
       fetch_post_data s ⟨[ReqResult.ok r1, ReqResult.raiseHttp], [aEnv]⟩ e d x 1 delay =
         (Except.ok ⟨[]⟩,
          [Event.postReq e d x s.access_token, Event.log403 r1, Event.sleepEv delay,
           Event.loginPost, Event.postReq e d x s2.access_token, Event.log403 r1])) ∧
    (∀ (s : Session) (e d x : String) (retries delay : Nat)
       (rest : List ReqResult) (auths : List AuthEnv),
       fetch_post_data s ⟨ReqResult.raiseHttp :: rest, auths⟩ e d x retries delay =
         (Except.error Fatal.unboundLocal, [Event.postReq e d x s.access_token])) ∧
    (∀ (s : Session) (retries delay : Nat)
       (rest : List ReqResult) (auths : List AuthEnv),
       fetch_pcr_volume s ⟨ReqResult.raiseHttp :: rest, auths⟩ retries delay =
         (Except.error Fatal.unboundLocal, [Event.getReq s.access_token])) := by
  refine ⟨?_, fun _ _ _ _ _ _ _ _ => rfl, fun _ _ _ _ _ => rfl⟩
  intro s s2 e d x delay r1 aEnv h403 hbody hauth
  have haeq := initialize_api_ok aEnv s2 hauth
  simp only [fetch_post_data, fetchLoop, List.headD]
  rw [if_pos (by omega : 400 ≤ r1.status_code), if_neg (fun hc => hbody hc.2),
    if_pos h403, if_neg (by omega : ¬ (1 : Nat) + 0 = 0)]
  rw [haeq]
  simp only [List.tail_cons, List.headD]
  have hcond : ¬(r1.status_code = 403 ∧ r1.body = none) := fun hc => hbody hc.2
  simp [if_neg hcond]

/-- Witness for C10: with a parseable 403 response on the first attempt
and a response-less `HTTPError` on the second, the 403 details of the
first response are logged twice — the second time while handling the
second attempt, which produced no response of its own. -/
theorem C10_witness :
    fetch_post_data ⟨"T1"⟩
        ⟨[ReqResult.ok ⟨403, some ⟨false, none⟩⟩, ReqResult.raiseHttp], [okAuth "T2"]⟩
        "gainersLosers" "PercOIGainers" "NEAR" 1 2 =
      (Except.ok ⟨[]⟩,
       [Event.postReq "gainersLosers" "PercOIGainers" "NEAR" "T1",
        Event.log403 ⟨403, some ⟨false, none⟩⟩, Event.sleepEv 2, Event.loginPost,
        Event.postReq "gainersLosers" "PercOIGainers" "NEAR" "T2",
        Event.log403 ⟨403, some ⟨false, none⟩⟩]) :=
  C10_stale_response_in_handler.1 ⟨"T1"⟩ ⟨"T2"⟩
    "gainersLosers" "PercOIGainers" "NEAR" 2 ⟨403, some ⟨false, none⟩⟩ (okAuth "T2")
    rfl (by simp) rfl

end GnLBuild
